import Mathlib

/-!
Shallow embedding of the Tally Connector authentication backend
(`src/main.py`) and proofs about its claims.

Modelling conventions:
* `datetime.utcnow()` is a `Nat` (seconds since epoch) passed in as `now`.
* Random values produced inside a handler (`secrets.token_urlsafe`,
  `generate_otp`, a bcrypt hash) are passed as explicit arguments.
* The SQL store is a `DB` structure holding the `users` and
  `user_sessions` tables as lists of rows; `fetchone` after a
  `SELECT ... WHERE p` is `List.find?`; `UPDATE ... WHERE user_id = %s`
  maps over all rows with that id; SQL `=` against a NULL column is
  never true, so lookups by token compare with `some tok`.
* A handler returns `Outcome α × DB`: `ok` for a 200 body,
  `httpError status detail` for a raised `HTTPException`, and `crash`
  for an unhandled Python exception (a 500 with no state change).
-/

namespace Tally

/-- A scalar JSON value appearing in a response payload. -/
inductive JVal where
  | s : String → JVal
  | n : Nat → JVal
  | b : Bool → JVal
  | null : JVal
deriving DecidableEq, Repr

def optS : Option String → JVal
  | some v => .s v
  | none => .null

def optN : Option Nat → JVal
  | some v => .n v
  | none => .null

/-- Row of the `users` table. -/
structure UserRow where
  user_id : Nat
  email : String
  full_name : String
  phone : Option String
  password_hash : String
  is_active : Bool
  is_verified : Bool
  email_verification_token : Option String
  password_reset_token : Option String
  password_reset_expires : Option Nat
  created_at : Nat
  updated_at : Nat
  last_login : Option Nat
deriving DecidableEq, Repr

/-- Row of the `user_sessions` table. -/
structure SessionRow where
  user_id : Nat
  session_token : String
  device_type : String
  expires_at : Nat
deriving DecidableEq, Repr

/-- The relational store. -/
structure DB where
  users : List UserRow
  sessions : List SessionRow
deriving DecidableEq, Repr

/-- Result of a request handler: a 200 body, a raised `HTTPException`,
or an unhandled Python exception (surfacing as a 500). -/
inductive Outcome (α : Type) where
  | ok : α → Outcome α
  | httpError : Nat → String → Outcome α
  | crash : String → Outcome α
deriving DecidableEq, Repr

/-- `ACCESS_TOKEN_EXPIRE_HOURS` environment default. -/
def ACCESS_TOKEN_EXPIRE_HOURS : Nat := 24

/-- `UPDATE users SET ... WHERE user_id = %s`. -/
def updateUser (db : DB) (uid : Nat) (f : UserRow → UserRow) : DB :=
  { db with users := db.users.map fun u => if u.user_id == uid then f u else u }

/-- `SELECT ... FROM users WHERE email = %s` followed by `fetchone()`. -/
def findUserByEmail (db : DB) (email : String) : Option UserRow :=
  db.users.find? fun u => u.email == email

/-! ## JWT access tokens (`create_access_token` / `verify_token`) -/

/-- The claims `create_access_token` embeds (the signing itself is the
external `jwt` library; we keep the claims). -/
structure AccessTokenClaims where
  user_id : Nat
  email : String
  exp : Nat
deriving DecidableEq, Repr

def create_access_token (user_id : Nat) (email : String) (now : Nat) :
    AccessTokenClaims :=
  { user_id, email, exp := now + ACCESS_TOKEN_EXPIRE_HOURS * 3600 }

/-- Outcome of the external `jwt.decode` call: a valid payload, an
`ExpiredSignatureError` (expiry claim in the past), or any other JWT
error (bad signature or malformed structure, a `DecodeError` in
PyJWT). -/
inductive JwtDecodeResult where
  | ok : Nat → String → JwtDecodeResult
  | expiredSignature : JwtDecodeResult
  | jwtError : JwtDecodeResult
deriving DecidableEq, Repr

/-- `verify_token`. The `except jwt.ExpiredSignatureError` clause
exists in PyJWT and yields the 401, but the second clause is
`except jwt.JWTError` and PyJWT has no `JWTError` attribute (that
class is python-jose), so for any other decode error the except-clause
lookup itself raises `AttributeError` and the request dies unhandled:
the 401 Invalid token response is unreachable. -/
def verify_token : JwtDecodeResult → Outcome (Nat × String)
  | .ok uid email => .ok (uid, email)
  | .expiredSignature => .httpError 401 "Token has expired"
  | .jwtError => .crash "AttributeError: module jwt has no attribute JWTError"

/-! ## forgot_password -/

/-- `POST /api/auth/forgot-password`. Returns the response message and
the new store. `reset_token` stands for `secrets.token_urlsafe(32)`. -/
def forgot_password (db : DB) (now : Nat) (email reset_token : String) :
    String × DB :=
  match findUserByEmail db email with
  | none => ("If email exists, password reset link has been sent", db)
  | some user =>
      let db1 := updateUser db user.user_id fun u =>
        { u with password_reset_token := some reset_token
                 password_reset_expires := some (now + 3600) }
      ("Password reset link sent to your email", db1)

/-! ## signup / login -/

/-- The `dict(new_user)` payload signup returns: exactly the columns of
the `RETURNING` clause. -/
def signupUserPayload (u : UserRow) : List (String × JVal) :=
  [("user_id", .n u.user_id), ("email", .s u.email),
   ("full_name", .s u.full_name), ("phone", optS u.phone),
   ("is_verified", .b u.is_verified), ("created_at", .n u.created_at)]

/-- The `user_response` dict login builds after stripping
`password_hash`. -/
def loginUserPayload (u : UserRow) : List (String × JVal) :=
  [("user_id", .n u.user_id), ("email", .s u.email),
   ("full_name", .s u.full_name), ("phone", optS u.phone),
   ("is_verified", .b u.is_verified), ("created_at", .n u.created_at),
   ("last_login", optN u.last_login)]

/-- Body of a `TokenResponse`. -/
structure TokenResponse where
  access_token : AccessTokenClaims
  token_type : String
  user : List (String × JVal)
deriving DecidableEq, Repr

/-- `POST /api/auth/signup`. `password_hash`, `verification_token` and
`session_token` stand for the bcrypt hash and the two
`secrets.token_urlsafe(32)` draws; `new_id` is the id the store assigns
to the inserted row. -/
def signup (db : DB) (now : Nat) (full_name email password : String)
    (phone : Option String)
    (password_hash verification_token session_token : String)
    (new_id : Nat) : Outcome TokenResponse × DB :=
  let _ := password
  match findUserByEmail db email with
  | some _ => (.httpError 400 "Email already registered", db)
  | none =>
      let newUser : UserRow :=
        { user_id := new_id, email, full_name, phone, password_hash,
          is_active := true, is_verified := false,
          email_verification_token := some verification_token,
          password_reset_token := none, password_reset_expires := none,
          created_at := now, updated_at := now, last_login := none }
      let db1 : DB := { db with users := db.users ++ [newUser] }
      let sess : SessionRow :=
        { user_id := new_id, session_token, device_type := "mobile",
          expires_at := now + ACCESS_TOKEN_EXPIRE_HOURS * 3600 }
      let db2 : DB := { db1 with sessions := db1.sessions ++ [sess] }
      (.ok { access_token := create_access_token new_id email now,
             token_type := "bearer",
             user := signupUserPayload newUser }, db2)

/-- `POST /api/auth/login`. `verifyPassword` is `bcrypt.checkpw`;
`session_token` is the `secrets.token_urlsafe(32)` draw. -/
def login (db : DB) (now : Nat) (email password : String)
    (verifyPassword : String → String → Bool)
    (session_token : String) : Outcome TokenResponse × DB :=
  match findUserByEmail db email with
  | none => (.httpError 401 "Invalid email or password", db)
  | some user =>
      if !verifyPassword password user.password_hash then
        (.httpError 401 "Invalid email or password", db)
      else if !user.is_active then
        (.httpError 403 "Account is deactivated", db)
      else
        let db1 := updateUser db user.user_id fun u =>
          { u with last_login := some now }
        let sess : SessionRow :=
          { user_id := user.user_id, session_token,
            device_type := "mobile",
            expires_at := now + ACCESS_TOKEN_EXPIRE_HOURS * 3600 }
        let db2 : DB := { db1 with sessions := db1.sessions ++ [sess] }
        (.ok { access_token := create_access_token user.user_id user.email now,
               token_type := "bearer",
               user := loginUserPayload user }, db2)

/-! ## reset_password -/

/-- `POST /api/auth/reset-password`. `new_hash` stands for the bcrypt
hash of `new_password`. The source compares
`user[password_reset_expires] < datetime.utcnow()`: when the column
is NULL that comparison raises a `TypeError`, hence the `crash`
branch. -/
def reset_password (db : DB) (now : Nat) (token new_hash : String) :
    Outcome String × DB :=
  match db.users.find? (fun u => u.password_reset_token == some token) with
  | none => (.httpError 400 "Invalid reset token", db)
  | some user =>
      match user.password_reset_expires with
      | none => (.crash "TypeError: comparison between NoneType and datetime is not supported", db)
      | some exp =>
          if exp < now then
            (.httpError 400 "Reset token has expired", db)
          else
            let db1 := updateUser db user.user_id fun u =>
              { u with password_hash := new_hash,
                       password_reset_token := none,
                       password_reset_expires := none,
                       updated_at := now }
            (.ok "Password reset successful", db1)

/-! ## verify_email -/

/-- `GET /api/auth/verify-email`. Looks a user up by
`email_verification_token` only; no expiry of any kind is consulted. -/
def verify_email (db : DB) (now : Nat) (token : String) :
    Outcome (String × String) × DB :=
  match db.users.find? (fun u => u.email_verification_token == some token) with
  | none => (.httpError 400 "Invalid or expired verification token", db)
  | some user =>
      let db1 := updateUser db user.user_id fun u =>
        { u with is_verified := true,
                 email_verification_token := none,
                 updated_at := now }
      (.ok ("Email verified successfully!", user.email), db1)

/-! ## logout -/

/-- Python `str.startswith`, phrased structurally on the characters. -/
def pyStartsWith (s pre : String) : Bool :=
  pre.data.isPrefixOf s.data

/-- `POST /api/auth/logout`. `decode` is the external `jwt.decode`
oracle applied to the extracted bearer token
(`authorization.replace("Bearer ", "")`). -/
def logout (db : DB) (authorization : Option String)
    (decode : String → JwtDecodeResult) : Outcome String × DB :=
  match authorization with
  | none => (.httpError 401 "Not authenticated", db)
  | some auth =>
      if !pyStartsWith auth "Bearer " then
        (.httpError 401 "Not authenticated", db)
      else
        match verify_token (decode (auth.replace "Bearer " "")) with
        | .ok (uid, _) =>
            (.ok "Logged out successfully",
             { db with sessions :=
                 db.sessions.filter fun s => !(s.user_id == uid) })
        | .httpError c d => (.httpError c d, db)
        | .crash m => (.crash m, db)

/-! ## send_otp / verify_otp -/

/-- `POST /api/auth/send-otp`. `otp` stands for the `generate_otp(6)`
draw. The OTP is stored in `email_verification_token` and its
10-minute expiry in `password_reset_expires`. -/
def send_otp (db : DB) (now : Nat) (email otp : String) :
    Outcome String × DB :=
  match findUserByEmail db email with
  | none => (.httpError 404 "User not found", db)
  | some user =>
      let db1 := updateUser db user.user_id fun u =>
        { u with email_verification_token := some otp,
                 password_reset_expires := some (now + 600) }
      (.ok "OTP sent successfully to your email", db1)

/-- `POST /api/auth/verify-otp`. Two crash points are in the source:
`user[password_reset_expires] < datetime.utcnow()` raises a
`TypeError` when the column is NULL, and the clearing `UPDATE` passes
`(user[user_id])` — a bare int, not a one-element tuple — as the
query parameters, which psycopg rejects with a `TypeError` before
running the statement, so the success path never commits. -/
def verify_otp (db : DB) (now : Nat) (email otp : String) :
    Outcome String × DB :=
  match findUserByEmail db email with
  | none => (.httpError 404 "User not found", db)
  | some user =>
      if user.email_verification_token != some otp then
        (.httpError 400 "Invalid OTP", db)
      else
        match user.password_reset_expires with
        | none => (.crash "TypeError: comparison between NoneType and datetime is not supported", db)
        | some exp =>
            if exp < now then
              (.httpError 400 "OTP has expired", db)
            else
              (.crash "TypeError: query parameters should be a sequence or a mapping, got int", db)

/-! ## Concrete fixtures used by closed theorems and witnesses -/

/-- A freshly signed-up style user row. -/
def userA : UserRow :=
  { user_id := 1, email := "a@x.com", full_name := "Alice", phone := none,
    password_hash := "H", is_active := true, is_verified := false,
    email_verification_token := none, password_reset_token := none,
    password_reset_expires := none, created_at := 0, updated_at := 0,
    last_login := none }

/-- Store holding just `userA`. -/
def dbA : DB := { users := [userA], sessions := [] }

/-- Store where `userA` holds OTP "123456" expiring at time 1600. -/
def dbOtp : DB :=
  { users := [{ userA with email_verification_token := some "123456",
                           password_reset_expires := some 1600 }],
    sessions := [] }

/-! ## Theorems for the claims -/

/-- C1 (code bug): for a user whose stored `email_verification_token`
equals the submitted otp and whose `password_reset_expires` is in the
future, `verify_otp` does not succeed: the clearing `UPDATE` passes
`(user[user_id])` — a bare int instead of a one-element tuple — as
query parameters, psycopg raises a `TypeError`, and the request dies
with the store unchanged, so `is_verified` is never set and the fields
are never cleared. -/
theorem verify_otp_success_path_crashes :
    verify_otp dbOtp 1000 "a@x.com" "123456" =
      (.crash "TypeError: query parameters should be a sequence or a mapping, got int",
       dbOtp) := by
  decide

/-- C2 (code bug): `forgot_password` does not return the same message
in the found and not-found branches: an existing email gets
"Password reset link sent to your email" while an unknown one gets
"If email exists, password reset link has been sent", so the response
body reveals whether the email is registered. -/
theorem forgot_password_messages_differ :
    (forgot_password dbA 0 "a@x.com" "rt").1 ≠
    (forgot_password dbA 0 "b@x.com" "rt").1 := by
  decide

/-- C3 (code bug): an expired token is answered with 401 Token has
expired as claimed, but an invalid or malformed token is not answered
with 401 Invalid token: PyJWT raises a `DecodeError`, the
`except jwt.JWTError` clause lookup itself raises `AttributeError`
(PyJWT has no such attribute), and the request dies with an unhandled
error, so a bad token has an outcome other than the two typed 401s. -/
theorem verify_token_invalid_branch_crashes :
    verify_token .expiredSignature = .httpError 401 "Token has expired" ∧
    verify_token .jwtError
      = .crash "AttributeError: module jwt has no attribute JWTError" ∧
    verify_token .jwtError ≠ .httpError 401 "Invalid token" := by
  refine ⟨rfl, rfl, ?_⟩
  intro h
  cases h

/-- C6: login with an unknown email and login with a known email but a
password that fails the bcrypt check both return 401 with the same
detail "Invalid email or password". -/
theorem login_unknown_email_and_wrong_password_same_error
    (db : DB) (now : Nat) (em1 em2 pw1 pw2 st1 st2 : String)
    (vp : String → String → Bool) (u : UserRow)
    (h1 : findUserByEmail db em1 = none)
    (h2 : findUserByEmail db em2 = some u)
    (h3 : vp pw2 u.password_hash = false) :
    (login db now em1 pw1 vp st1).1 = .httpError 401 "Invalid email or password" ∧
    (login db now em2 pw2 vp st2).1 = .httpError 401 "Invalid email or password" ∧
    (login db now em1 pw1 vp st1).1 = (login db now em2 pw2 vp st2).1 := by
  have a : (login db now em1 pw1 vp st1).1
      = .httpError 401 "Invalid email or password" := by
    simp [login, h1]
  have b : (login db now em2 pw2 vp st2).1
      = .httpError 401 "Invalid email or password" := by
    simp [login, h2, h3]
  exact ⟨a, b, a.trans b.symm⟩

/-- Witness for C6 on the one-user store `dbA`. -/
theorem login_same_error_witness :
    (login dbA 5 "b@x.com" "pw" (fun _ _ => false) "st1").1
      = .httpError 401 "Invalid email or password" ∧
    (login dbA 5 "a@x.com" "pw" (fun _ _ => false) "st2").1
      = .httpError 401 "Invalid email or password" ∧
    (login dbA 5 "b@x.com" "pw" (fun _ _ => false) "st1").1
      = (login dbA 5 "a@x.com" "pw" (fun _ _ => false) "st2").1 :=
  login_unknown_email_and_wrong_password_same_error dbA 5 "b@x.com" "a@x.com"
    "pw" "pw" "st1" "st2" (fun _ _ => false) userA (by decide) (by decide) rfl

/-- C7: a successful signup response and a successful login response
never carry a `password_hash` key in the user payload. -/
theorem signup_login_payload_no_password_hash :
    (∀ db now fn em pw ph hsh vt st nid resp db2,
       signup db now fn em pw ph hsh vt st nid = (.ok resp, db2) →
       "password_hash" ∉ resp.user.map Prod.fst) ∧
    (∀ db now em pw vp st resp db2,
       login db now em pw vp st = (.ok resp, db2) →
       "password_hash" ∉ resp.user.map Prod.fst) := by
  constructor
  · intro db now fn em pw ph hsh vt st nid resp db2 h
    unfold signup at h
    split at h
    · simp at h
    · simp only [Prod.mk.injEq, Outcome.ok.injEq] at h
      obtain ⟨h1, _⟩ := h
      rw [← h1]
      simp [signupUserPayload]
  · intro db now em pw vp st resp db2 h
    unfold login at h
    split at h
    · simp at h
    · split at h
      · simp at h
      · split at h
        · simp at h
        · simp only [Prod.mk.injEq, Outcome.ok.injEq] at h
          obtain ⟨h1, _⟩ := h
          rw [← h1]
          simp [loginUserPayload]

/-- Witness for C7: the payload of a concrete successful signup. -/
theorem signup_payload_no_password_hash_witness :
    "password_hash" ∉
      ({ access_token := { user_id := 1, email := "a@x.com", exp := 86400 },
         token_type := "bearer",
         user := signupUserPayload
           { user_id := 1, email := "a@x.com", full_name := "Alice",
             phone := none, password_hash := "H", is_active := true,
             is_verified := false,
             email_verification_token := some "VT",
             password_reset_token := none, password_reset_expires := none,
             created_at := 0, updated_at := 0,
             last_login := none } : TokenResponse }).user.map Prod.fst :=
  signup_login_payload_no_password_hash.1 ⟨[], []⟩ 0 "Alice" "a@x.com" "pw"
    none "H" "VT" "ST" 1 _ _ rfl

/-- Membership in an updated `users` table comes from a row of the
original table, updated iff its id matches. -/
theorem mem_updateUser {db : DB} {uid : Nat} {f : UserRow → UserRow}
    {u : UserRow} (h : u ∈ (updateUser db uid f).users) :
    ∃ v ∈ db.users, u = if v.user_id = uid then f v else v := by
  simp only [updateUser, List.mem_map] at h
  obtain ⟨v, hv, he⟩ := h
  refine ⟨v, hv, ?_⟩
  rw [← he]
  by_cases hc : v.user_id = uid
  · simp [hc]
  · simp [hc]

/-- After updating the unique holder of a token with a function that
clears the token field, no row matches a lookup by that token. -/
theorem find?_updateUser_eq_none (db : DB) (uid : Nat)
    (f : UserRow → UserRow) (g : UserRow → Option String) (tok : String)
    (hclear : ∀ u, g (f u) = none)
    (huniq : ∀ u ∈ db.users, g u = some tok → u.user_id = uid) :
    (updateUser db uid f).users.find? (fun u => g u == some tok) = none := by
  rw [List.find?_eq_none]
  intro u hu
  obtain ⟨v, hv, he⟩ := mem_updateUser hu
  subst he
  by_cases hc : v.user_id = uid
  · simp [hc, hclear]
  · have hne : g v ≠ some tok := fun h => hc (huniq v hv h)
    simp [hc, hne]

/-- C4: when `reset_password` succeeds for the unique holder of a
reset token, that user has its `password_reset_token` and
`password_reset_expires` are cleared, and a second `reset_password`
with the same token fails with 400 "Invalid reset token". -/
theorem reset_password_single_use
    (db db2 : DB) (now now2 : Nat) (tok hsh hsh2 : String) (u0 : UserRow)
    (hfind : db.users.find? (fun u => u.password_reset_token == some tok)
      = some u0)
    (huniq : ∀ u ∈ db.users, u.password_reset_token = some tok →
      u.user_id = u0.user_id)
    (hsucc : reset_password db now tok hsh
      = (.ok "Password reset successful", db2)) :
    (∀ u ∈ db2.users, u.user_id = u0.user_id →
        u.password_reset_token = none ∧ u.password_reset_expires = none) ∧
    (reset_password db2 now2 tok hsh2).1
      = .httpError 400 "Invalid reset token" := by
  cases hexp : u0.password_reset_expires with
  | none =>
      have heq : reset_password db now tok hsh
          = (.crash "TypeError: comparison between NoneType and datetime is not supported", db) := by
        simp [reset_password, hfind, hexp]
      rw [heq] at hsucc
      simp at hsucc
  | some exp =>
      by_cases hlt : exp < now
      · have heq : reset_password db now tok hsh
            = (.httpError 400 "Reset token has expired", db) := by
          simp [reset_password, hfind, hexp, hlt]
        rw [heq] at hsucc
        simp at hsucc
      · have heq : reset_password db now tok hsh
            = (.ok "Password reset successful",
               updateUser db u0.user_id fun u =>
                 { u with password_hash := hsh,
                          password_reset_token := none,
                          password_reset_expires := none,
                          updated_at := now }) := by
          simp [reset_password, hfind, hexp, hlt]
        rw [heq] at hsucc
        rw [Prod.mk.injEq] at hsucc
        obtain ⟨-, hdb⟩ := hsucc
        subst hdb
        constructor
        · intro u hu hid
          obtain ⟨v, hv, he⟩ := mem_updateUser hu
          by_cases hc : v.user_id = u0.user_id
          · rw [if_pos hc] at he
            subst he
            exact ⟨rfl, rfl⟩
          · rw [if_neg hc] at he
            subst he
            exact absurd hid hc
        · have hnone := find?_updateUser_eq_none db u0.user_id
            (fun u => { u with password_hash := hsh,
                               password_reset_token := none,
                               password_reset_expires := none,
                               updated_at := now })
            (fun u => u.password_reset_token) tok (fun _ => rfl) huniq
          unfold reset_password
          rw [hnone]

/-- Witness setup for C4: `userA` holding reset token "rt" until 3600. -/
def dbReset : DB :=
  { users := [{ userA with password_reset_token := some "rt",
                           password_reset_expires := some 3600 }],
    sessions := [] }

/-- Witness for C4 on the concrete store `dbReset` at time 100. -/
theorem reset_password_single_use_witness :
    (∀ u ∈ ({ users := [{ userA with password_hash := "H2",
                                     updated_at := 100 }],
              sessions := [] } : DB).users,
        u.user_id = ({ userA with password_reset_token := some "rt",
                                  password_reset_expires := some 3600
                     } : UserRow).user_id →
        u.password_reset_token = none ∧ u.password_reset_expires = none) ∧
    (reset_password { users := [{ userA with password_hash := "H2",
                                             updated_at := 100 }],
                      sessions := [] } 200 "rt" "H3").1
      = .httpError 400 "Invalid reset token" :=
  reset_password_single_use dbReset _ 100 200 "rt" "H2" "H3" _
    (by decide) (by decide) (by decide)

/-- C5: `verify_email` fails with 400 "Invalid or expired verification
token" when no user holds the token; on success for the unique holder
it sets `is_verified` and clears `email_verification_token`, so
repeating `verify_email` with the same token fails with the same
400. -/
theorem verify_email_single_use
    (db db2 : DB) (now now2 : Nat) (tok em : String) (u0 : UserRow)
    (hfind : db.users.find?
        (fun u => u.email_verification_token == some tok) = some u0)
    (huniq : ∀ u ∈ db.users, u.email_verification_token = some tok →
      u.user_id = u0.user_id)
    (hsucc : verify_email db now tok
      = (.ok ("Email verified successfully!", em), db2)) :
    (∀ db3 now3 t,
        (∀ u ∈ db3.users, u.email_verification_token ≠ some t) →
        (verify_email db3 now3 t).1
          = .httpError 400 "Invalid or expired verification token") ∧
    (∀ u ∈ db2.users, u.user_id = u0.user_id →
        u.is_verified = true ∧ u.email_verification_token = none) ∧
    (verify_email db2 now2 tok).1
      = .httpError 400 "Invalid or expired verification token" := by
  have part1 : ∀ db3 now3 t,
      (∀ u ∈ db3.users, u.email_verification_token ≠ some t) →
      (verify_email db3 now3 t).1
        = .httpError 400 "Invalid or expired verification token" := by
    intro db3 now3 t h
    have hn : db3.users.find?
        (fun u => u.email_verification_token == some t) = none := by
      rw [List.find?_eq_none]
      intro u hu
      simpa using h u hu
    simp [verify_email, hn]
  have heq : verify_email db now tok
      = (.ok ("Email verified successfully!", u0.email),
         updateUser db u0.user_id fun u =>
           { u with is_verified := true,
                    email_verification_token := none,
                    updated_at := now }) := by
    simp [verify_email, hfind]
  rw [heq] at hsucc
  rw [Prod.mk.injEq] at hsucc
  obtain ⟨-, hdb⟩ := hsucc
  subst hdb
  refine ⟨part1, ?_, ?_⟩
  · intro u hu hid
    obtain ⟨v, hv, he⟩ := mem_updateUser hu
    by_cases hc : v.user_id = u0.user_id
    · rw [if_pos hc] at he
      subst he
      exact ⟨rfl, rfl⟩
    · rw [if_neg hc] at he
      subst he
      exact absurd hid hc
  · have hnone := find?_updateUser_eq_none db u0.user_id
      (fun u => { u with is_verified := true,
                         email_verification_token := none,
                         updated_at := now })
      (fun u => u.email_verification_token) tok (fun _ => rfl) huniq
    simp [verify_email, hnone]

/-- Witness setup for C5: `userA` holding verification token "VT". -/
def dbVerify : DB :=
  { users := [{ userA with email_verification_token := some "VT" }],
    sessions := [] }

/-- Witness for C5 on the concrete store `dbVerify` at time 50. -/
theorem verify_email_single_use_witness :
    (∀ db3 now3 t,
        (∀ u ∈ db3.users, u.email_verification_token ≠ some t) →
        (verify_email db3 now3 t).1
          = .httpError 400 "Invalid or expired verification token") ∧
    (∀ u ∈ ({ users := [{ userA with is_verified := true,
                                     updated_at := 50 }],
              sessions := [] } : DB).users,
        u.user_id = ({ userA with email_verification_token := some "VT"
                     } : UserRow).user_id →
        u.is_verified = true ∧ u.email_verification_token = none) ∧
    (verify_email { users := [{ userA with is_verified := true,
                                           updated_at := 50 }],
                    sessions := [] } 60 "VT").1
      = .httpError 400 "Invalid or expired verification token" :=
  verify_email_single_use dbVerify _ 50 60 "VT" "a@x.com" _
    (by decide) (by decide) (by decide)

/-- C8: with a valid bearer token for user `uid`, logout succeeds,
afterwards no session row of `uid` remains, every session row of any
other user survives, nothing is added, and the `users` table is
untouched. -/
theorem logout_deletes_all_and_only_users_sessions
    (db : DB) (auth : String) (uid : Nat) (email : String)
    (decode : String → JwtDecodeResult)
    (hb : pyStartsWith auth "Bearer " = true)
    (hdec : decode (auth.replace "Bearer " "") = .ok uid email) :
    (logout db (some auth) decode).1 = .ok "Logged out successfully" ∧
    (logout db (some auth) decode).2.users = db.users ∧
    (∀ s ∈ (logout db (some auth) decode).2.sessions, s.user_id ≠ uid) ∧
    (∀ s ∈ db.sessions, s.user_id ≠ uid →
        s ∈ (logout db (some auth) decode).2.sessions) ∧
    (∀ s ∈ (logout db (some auth) decode).2.sessions, s ∈ db.sessions) := by
  have heq : logout db (some auth) decode
      = (.ok "Logged out successfully",
         { db with sessions :=
             db.sessions.filter fun s => !(s.user_id == uid) }) := by
    simp [logout, hb, hdec, verify_token]
  rw [heq]
  refine ⟨rfl, rfl, ?_, ?_, ?_⟩
  · intro s hs
    have := (List.mem_filter.mp hs).2
    simpa using this
  · intro s hs hne
    exact List.mem_filter.mpr ⟨hs, by simpa using hne⟩
  · intro s hs
    exact (List.mem_filter.mp hs).1

/-- Witness setup for C8: sessions for users 1 and 2. -/
def dbSessions : DB :=
  { users := [userA],
    sessions := [{ user_id := 1, session_token := "s1",
                   device_type := "mobile", expires_at := 100 },
                 { user_id := 2, session_token := "s2",
                   device_type := "mobile", expires_at := 100 }] }

/-- Witness for C8 with a decode oracle accepting the bearer token as
user 1. -/
theorem logout_with_sessions_witness :
    (logout dbSessions (some "Bearer t") (fun _ => .ok 1 "a@x.com")).1
      = .ok "Logged out successfully" ∧
    (logout dbSessions (some "Bearer t") (fun _ => .ok 1 "a@x.com")).2.users
      = dbSessions.users ∧
    (∀ s ∈ (logout dbSessions (some "Bearer t")
        (fun _ => .ok 1 "a@x.com")).2.sessions, s.user_id ≠ 1) ∧
    (∀ s ∈ dbSessions.sessions, s.user_id ≠ 1 →
        s ∈ (logout dbSessions (some "Bearer t")
          (fun _ => .ok 1 "a@x.com")).2.sessions) ∧
    (∀ s ∈ (logout dbSessions (some "Bearer t")
        (fun _ => .ok 1 "a@x.com")).2.sessions, s ∈ dbSessions.sessions) :=
  logout_deletes_all_and_only_users_sessions dbSessions "Bearer t" 1
    "a@x.com" (fun _ => .ok 1 "a@x.com") (by decide) rfl

/-- C10: a user in the state signup leaves behind has
`email_verification_token` set and `password_reset_expires` NULL;
`verify_otp` with that stored token as the otp passes the equality
check and then evaluates `None < datetime.utcnow()`, an unhandled
`TypeError`, instead of any of the typed failures. -/
theorem verify_otp_crashes_on_signup_state
    (db db2 : DB) (now now2 : Nat) (fn email pw : String)
    (ph : Option String) (hsh vt st : String) (nid : Nat)
    (resp : TokenResponse)
    (hsign : signup db now fn email pw ph hsh vt st nid
      = (.ok resp, db2)) :
    (verify_otp db2 now2 email vt).1
      = .crash "TypeError: comparison between NoneType and datetime is not supported" ∧
    ∀ c d, (verify_otp db2 now2 email vt).1 ≠ .httpError c d := by
  cases hf : findUserByEmail db email with
  | some u =>
      have : signup db now fn email pw ph hsh vt st nid
          = (.httpError 400 "Email already registered", db) := by
        simp [signup, hf]
      rw [this] at hsign
      simp at hsign
  | none =>
      simp only [signup, hf, Prod.mk.injEq, Outcome.ok.injEq] at hsign
      obtain ⟨-, hdb⟩ := hsign
      subst hdb
      have hfemail : db.users.find? (fun u => u.email == email) = none := hf
      have hfind2 : findUserByEmail
          { users := db.users ++
              [{ user_id := nid, email := email, full_name := fn,
                 phone := ph, password_hash := hsh, is_active := true,
                 is_verified := false,
                 email_verification_token := some vt,
                 password_reset_token := none,
                 password_reset_expires := none, created_at := now,
                 updated_at := now, last_login := none }],
            sessions := db.sessions ++
              [{ user_id := nid, session_token := st,
                 device_type := "mobile",
                 expires_at := now + ACCESS_TOKEN_EXPIRE_HOURS * 3600 }] }
          email = some
            { user_id := nid, email := email, full_name := fn,
              phone := ph, password_hash := hsh, is_active := true,
              is_verified := false,
              email_verification_token := some vt,
              password_reset_token := none,
              password_reset_expires := none, created_at := now,
              updated_at := now, last_login := none } := by
        simp [findUserByEmail, List.find?_append, hfemail]
      constructor
      · simp [verify_otp, hfind2]
      · intro c d
        simp [verify_otp, hfind2]

/-- The store signup of Alice leaves behind, used by the C10 witness:
verification token stored, `password_reset_expires` NULL. -/
def dbSignedUp : DB :=
  { users := [{ user_id := 1, email := "a@x.com", full_name := "Alice",
                phone := none, password_hash := "H", is_active := true,
                is_verified := false,
                email_verification_token := some "VT",
                password_reset_token := none,
                password_reset_expires := none, created_at := 0,
                updated_at := 0, last_login := none }],
    sessions := [{ user_id := 1, session_token := "ST",
                   device_type := "mobile", expires_at := 86400 }] }

/-- Witness for C10: signup of Alice on an empty store, then
`verify_otp` with the issued verification token. -/
theorem verify_otp_crashes_on_signup_state_witness :
    (verify_otp dbSignedUp 7 "a@x.com" "VT").1
      = .crash "TypeError: comparison between NoneType and datetime is not supported" ∧
    ∀ c d, (verify_otp dbSignedUp 7 "a@x.com" "VT").1 ≠ .httpError c d :=
  verify_otp_crashes_on_signup_state ⟨[], []⟩ _ 0 7 "Alice" "a@x.com"
    "pw" none "H" "VT" "ST" 1 _ rfl

/-- C9: `verify_email` fails exactly when no user row holds the given
`email_verification_token` — it consults no expiry — so an OTP stored
by `send_otp` whose 10-minute `password_reset_expires` has already
passed still succeeds at `verify_email` and marks the user
verified. -/
theorem verify_email_accepts_expired_otp
    (db db1 : DB) (now now2 : Nat) (email otp : String) (u0 : UserRow)
    (hfind : findUserByEmail db email = some u0)
    (huniq : ∀ u ∈ db.users, u.email_verification_token = some otp →
      u.user_id = u0.user_id)
    (hsend : send_otp db now email otp
      = (.ok "OTP sent successfully to your email", db1))
    (_hexp : now + 600 < now2) :
    (∃ em, (verify_email db1 now2 otp).1
        = .ok ("Email verified successfully!", em)) ∧
    (∀ u ∈ (verify_email db1 now2 otp).2.users,
        u.user_id = u0.user_id → u.is_verified = true) ∧
    (∀ db3 now3 t,
        (verify_email db3 now3 t).1
            = .httpError 400 "Invalid or expired verification token" ↔
        ∀ u ∈ db3.users, u.email_verification_token ≠ some t) := by
  have partIff : ∀ db3 now3 t,
      (verify_email db3 now3 t).1
          = .httpError 400 "Invalid or expired verification token" ↔
      ∀ u ∈ db3.users, u.email_verification_token ≠ some t := by
    intro db3 now3 t
    cases hf3 : db3.users.find?
        (fun u => u.email_verification_token == some t) with
    | none =>
        have hall := List.find?_eq_none.mp hf3
        simp only [verify_email, hf3]
        constructor
        · intro _ u hu
          simpa using hall u hu
        · intro _
          trivial
    | some w =>
        have hpw : w.email_verification_token = some t := by
          simpa using List.find?_some hf3
        have hmem := List.mem_of_find?_eq_some hf3
        simp only [verify_email, hf3]
        constructor
        · intro h
          exact absurd h (by simp)
        · intro h
          exact absurd hpw (h w hmem)
  have heq : send_otp db now email otp
      = (.ok "OTP sent successfully to your email",
         updateUser db u0.user_id fun u =>
           { u with email_verification_token := some otp,
                    password_reset_expires := some (now + 600) }) := by
    simp [send_otp, hfind]
  rw [heq] at hsend
  rw [Prod.mk.injEq] at hsend
  obtain ⟨-, hdb⟩ := hsend
  subst hdb
  have hmem0 : u0 ∈ db.users := List.mem_of_find?_eq_some hfind
  have hsomeMem : ∃ x ∈ (updateUser db u0.user_id fun u =>
      { u with email_verification_token := some otp,
               password_reset_expires := some (now + 600) }).users,
      (x.email_verification_token == some otp) = true := by
    refine ⟨{ u0 with email_verification_token := some otp,
                      password_reset_expires := some (now + 600) },
            ?_, by simp⟩
    have : u0 ∈ db.users := hmem0
    simp only [updateUser, List.mem_map]
    exact ⟨u0, hmem0, by simp⟩
  obtain ⟨w, hw⟩ := Option.isSome_iff_exists.mp
    (List.find?_isSome.mpr hsomeMem)
  have hwid : w.user_id = u0.user_id := by
    obtain ⟨v, hv, he⟩ := mem_updateUser (List.mem_of_find?_eq_some hw)
    by_cases hc : v.user_id = u0.user_id
    · rw [if_pos hc] at he
      rw [he]
      exact hc
    · rw [if_neg hc] at he
      have hvt : v.email_verification_token = some otp := by
        have hps := List.find?_some hw
        rw [he] at hps
        simpa using hps
      exact absurd (huniq v hv hvt) hc
  have hres : verify_email (updateUser db u0.user_id fun u =>
      { u with email_verification_token := some otp,
               password_reset_expires := some (now + 600) }) now2 otp
      = (.ok ("Email verified successfully!", w.email),
         updateUser (updateUser db u0.user_id fun u =>
             { u with email_verification_token := some otp,
                      password_reset_expires := some (now + 600) })
           w.user_id fun u =>
             { u with is_verified := true,
                      email_verification_token := none,
                      updated_at := now2 }) := by
    simp [verify_email, hw]
  refine ⟨⟨w.email, by rw [hres]⟩, ?_, partIff⟩
  intro u hu hid
  rw [hres] at hu
  obtain ⟨v1, hv1, he1⟩ := mem_updateUser hu
  by_cases hc : v1.user_id = w.user_id
  · rw [if_pos hc] at he1
    rw [he1]
  · rw [if_neg hc] at he1
    rw [he1] at hid
    rw [hwid] at hc
    exact absurd hid hc

/-- Witness setup for C9: `userA` after `send_otp` stored OTP "111111"
with expiry 600. -/
def dbOtpSent : DB :=
  { users := [{ userA with email_verification_token := some "111111",
                           password_reset_expires := some 600 }],
    sessions := [] }

/-- Witness for C9 at time 601, one second past the OTP expiry. -/
theorem verify_email_accepts_expired_otp_witness :
    (∃ em, (verify_email dbOtpSent 601 "111111").1
        = .ok ("Email verified successfully!", em)) ∧
    (∀ u ∈ (verify_email dbOtpSent 601 "111111").2.users,
        u.user_id = userA.user_id → u.is_verified = true) ∧
    (∀ db3 now3 t,
        (verify_email db3 now3 t).1
            = .httpError 400 "Invalid or expired verification token" ↔
        ∀ u ∈ db3.users, u.email_verification_token ≠ some t) :=
  verify_email_accepts_expired_otp dbA _ 0 601 "a@x.com" "111111" userA
    (by decide) (by decide) (by decide) (by decide)

end Tally
